import Mathlib

/-!
Shallow embedding of the facility-booking module
(`src/app/facility-booking/page.tsx`) of the pspacademy repository.

Calendar dates are modelled as integer day numbers: the source stores
`checkIn`/`checkOut` as ISO strings, converts them with `parseISO`, and only
ever compares the resulting `Date` values with `<=`/`>=`, steps them by whole
days (`addDays(d, 1)`) and subtracts them (`differenceInDays`), so a totally
ordered integer day count is a faithful model (`parseISO` becomes the
identity).  JavaScript string truthiness (`undefined` and `""` are falsy) is
modelled explicitly.  The zod email pattern is library code, so validators are
parametrised over an arbitrary email predicate `emailOk`.
-/

namespace PspAcademy

/-- The `FacilityType` union type of the source. -/
inductive FacilityType
  | dorm | classroom | range | amphitheater | auditorium | gym | pool | other
deriving DecidableEq, Repr

/-- The `status` field's union type: `"active" | "completed" | "cancelled"`. -/
inductive RStatus
  | active | completed | cancelled
deriving DecidableEq, Repr

/-- The `Reservation` interface.  `facilityNumber?` and `specialRequests?` are
optional (`none` = `undefined`); `needsCleaning?: boolean` is modelled as a
`Bool` with `undefined` identified with `false`, which is how every read of the
field in the source treats it (truthiness tests only). -/
structure Reservation where
  id : String
  facilityType : FacilityType
  facilityNumber : Option String
  guestName : String
  guestEmail : String
  checkIn : Int
  checkOut : Int
  purpose : String
  specialRequests : Option String
  status : RStatus
  createdAt : String
  needsCleaning : Bool
deriving DecidableEq, Repr

/-- JavaScript falsiness of an optional string: `!facilityNumber` is `true`
for `undefined` and for the empty string. -/
def jsFalsy : Option String → Bool
  | none => true
  | some s => s == ""

/-- The filter predicate shared by `getBookedDatesForFacility` and
`checkForConflicts`:
`r.status === "active" && r.facilityType === facilityType &&
 (!facilityNumber || r.facilityNumber === facilityNumber)`. -/
def matchesFacility (facilityType : FacilityType) (facilityNumber : Option String)
    (r : Reservation) : Bool :=
  r.status == RStatus.active && r.facilityType == facilityType &&
    (jsFalsy facilityNumber || r.facilityNumber == facilityNumber)

/-- The three-disjunct date-overlap test inside `checkForConflicts`:
candidate start inside existing, candidate end inside existing, or candidate
containing existing. -/
def overlapsJs (checkIn checkOut existingStart existingEnd : Int) : Bool :=
  (decide (existingStart ≤ checkIn) && decide (checkIn ≤ existingEnd)) ||
  (decide (existingStart ≤ checkOut) && decide (checkOut ≤ existingEnd)) ||
  (decide (checkIn ≤ existingStart) && decide (existingEnd ≤ checkOut))

/-- `checkForConflicts(facilityType, facilityNumber, checkIn, checkOut)`:
filters to matching active reservations, then `some` over the overlap test. -/
def checkForConflicts (reservations : List Reservation) (facilityType : FacilityType)
    (facilityNumber : Option String) (checkIn checkOut : Int) : Bool :=
  (reservations.filter (matchesFacility facilityType facilityNumber)).any fun r =>
    overlapsJs checkIn checkOut r.checkIn r.checkOut

/-- The `while (currentDate <= end) { dates.push(currentDate); currentDate =
addDays(currentDate, 1) }` loop of `getBookedDatesForFacility`, for one
reservation. -/
def datesInRange (start stop : Int) : List Int :=
  if h : start ≤ stop then start :: datesInRange (start + 1) stop else []
termination_by (stop + 1 - start).toNat
decreasing_by
  rw [Int.toNat_lt_toNat] <;> omega

/-- `getBookedDatesForFacility(facilityType, facilityNumber)`: the days of all
matching active reservations, pushed in iteration order (no deduplication in
the source). -/
def getBookedDatesForFacility (reservations : List Reservation)
    (facilityType : FacilityType) (facilityNumber : Option String) : List Int :=
  (reservations.filter (matchesFacility facilityType facilityNumber)).flatMap
    fun r => datesInRange r.checkIn r.checkOut

/-- The shape produced by the reservation form (`ReservationFormData`):
every contact field is optional at the type level, the refinements decide
which pair is required. -/
structure ReservationFormData where
  facilityType : FacilityType
  facilityNumber : Option String
  guestName : Option String
  guestEmail : Option String
  instructorName : Option String
  instructorEmail : Option String
  checkIn : Int
  checkOut : Int
  purpose : String
  specialRequests : Option String
deriving DecidableEq, Repr

/-- One issue per failing check of `reservationSchema` (field checks and the
three `.refine` clauses). -/
inductive Issue
  | guestNameLen | guestEmailFormat | instructorNameLen | instructorEmailFormat
  | purposeLen | specialRequestsLen
  | missingContact | dateOrder | durationTooLong
deriving DecidableEq, Repr

/-- An optional zod field passes when absent (`undefined`), otherwise its
string checks must hold. -/
def optFieldOk (check : String → Bool) : Option String → Bool
  | none => true
  | some s => check s

/-- `z.string().min(2).max(100)` on a present value. -/
def nameLenOk (s : String) : Bool :=
  decide (2 ≤ s.length) && decide (s.length ≤ 100)

/-- Field-level issues of `reservationSchema` (the object part, before the
refinements).  `emailOk` stands for zod's email pattern. -/
def fieldIssues (emailOk : String → Bool) (d : ReservationFormData) : List Issue :=
  (if optFieldOk nameLenOk d.guestName then [] else [Issue.guestNameLen]) ++
  (if optFieldOk emailOk d.guestEmail then [] else [Issue.guestEmailFormat]) ++
  (if optFieldOk nameLenOk d.instructorName then [] else [Issue.instructorNameLen]) ++
  (if optFieldOk emailOk d.instructorEmail then [] else [Issue.instructorEmailFormat]) ++
  (if decide (10 ≤ d.purpose.length) && decide (d.purpose.length ≤ 500) then []
    else [Issue.purposeLen]) ++
  (if optFieldOk (fun s => decide (s.length ≤ 500)) d.specialRequests then []
    else [Issue.specialRequestsLen])

/-- JavaScript truthiness of an optional string (`undefined` and `""` are
falsy), used by the contact `.refine`. -/
def jsTruthy (s : Option String) : Bool :=
  !jsFalsy s

/-- The first `.refine` of `reservationSchema`: dorm drafts need truthy
`guestName`/`guestEmail`, all other drafts need truthy
`instructorName`/`instructorEmail`. -/
def contactRefineOk (d : ReservationFormData) : Bool :=
  if d.facilityType == FacilityType.dorm then
    jsTruthy d.guestName && jsTruthy d.guestEmail
  else
    jsTruthy d.instructorName && jsTruthy d.instructorEmail

/-- Issues of the three chained `.refine`s, evaluated in order.
`differenceInDays(checkOut, checkIn)` on day numbers is the difference. -/
def refineIssues (d : ReservationFormData) : List Issue :=
  (if contactRefineOk d then [] else [Issue.missingContact]) ++
  (if decide (d.checkIn < d.checkOut) then [] else [Issue.dateOrder]) ++
  (if decide (d.checkOut - d.checkIn ≤ 180) then [] else [Issue.durationTooLong])

/-- `reservationSchema` as an issue-collecting validator: the refinements run
only when the base object parse succeeded (zod skips effects on an aborted
inner parse); a draft is accepted exactly when the result is `[]`. -/
def reservationSchema (emailOk : String → Bool) (d : ReservationFormData) : List Issue :=
  let f := fieldIssues emailOk d
  if f.isEmpty then refineIssues d else f

/-- The user-visible outcome of an operation (`toast.success` /
`toast.error` / `toast.info` in the source). -/
inductive Toast
  | success (msg : String)
  | error (msg : String)
  | info (msg : String)
deriving DecidableEq, Repr

/-- Whether a toast reports a failure. -/
def Toast.isError : Toast → Bool
  | .error _ => true
  | _ => false

/-- Result of a submission attempt. -/
inductive SubmitResult
  | validationError (issues : List Issue)
  | conflictError
  | created (r : Reservation)
deriving DecidableEq, Repr

/-- The `newReservation` record literal built inside `onReservationSubmit`:
spreads the draft, resolves the stored `guestName`/`guestEmail` from the
guest pair for dorms and the instructor pair otherwise, normalises
`status = "active"`, `needsCleaning = false`, and stamps `createdAt`.
`newId` models the generated `RES-...` id and `now` the timestamp. -/
def newReservation (d : ReservationFormData) (newId now : String) : Reservation :=
  { id := newId
    facilityType := d.facilityType
    facilityNumber := d.facilityNumber
    guestName := if d.facilityType == FacilityType.dorm then d.guestName.getD ""
      else d.instructorName.getD ""
    guestEmail := if d.facilityType == FacilityType.dorm then d.guestEmail.getD ""
      else d.instructorEmail.getD ""
    checkIn := d.checkIn
    checkOut := d.checkOut
    purpose := d.purpose
    specialRequests := d.specialRequests
    status := RStatus.active
    createdAt := now
    needsCleaning := false }

/-- The submission pipeline: react-hook-form's `handleSubmit` runs
`reservationSchema` and calls `onReservationSubmit` only on success;
`onReservationSubmit` re-checks conflicts and either rejects (leaving the
collection alone) or appends the new record built from the draft. -/
def onReservationSubmit (emailOk : String → Bool) (reservations : List Reservation)
    (d : ReservationFormData) (newId : String) (now : String) :
    List Reservation × SubmitResult :=
  let issues := reservationSchema emailOk d
  if issues.isEmpty then
    if checkForConflicts reservations d.facilityType d.facilityNumber d.checkIn d.checkOut then
      (reservations, SubmitResult.conflictError)
    else
      (reservations ++ [newReservation d newId now],
        SubmitResult.created (newReservation d newId now))
  else (reservations, SubmitResult.validationError issues)

/-- `cancelReservation(id)`: maps over the whole collection, rewriting the
matching record to `status = cancelled, needsCleaning = (prior status ==
active)`; the success toast is emitted unconditionally. -/
def cancelReservation (reservations : List Reservation) (id : String) :
    List Reservation × Toast :=
  (reservations.map fun r =>
    if r.id == id then
      { r with status := RStatus.cancelled, needsCleaning := r.status == RStatus.active }
    else r,
  Toast.success "Reservation cancelled")

/-- `markForCleaning(id)`: sets `needsCleaning = true` on the matching record;
the info toast is emitted unconditionally. -/
def markForCleaning (reservations : List Reservation) (id : String) :
    List Reservation × Toast :=
  (reservations.map fun r =>
    if r.id == id then { r with needsCleaning := true } else r,
  Toast.info "Room marked for cleaning")

/-! ### Helper lemmas -/

theorem checkForConflicts_true_iff (rs : List Reservation) (ft : FacilityType)
    (fn : Option String) (ci co : Int) :
    checkForConflicts rs ft fn ci co = true ↔
      ∃ r ∈ rs, matchesFacility ft fn r = true ∧
        overlapsJs ci co r.checkIn r.checkOut = true := by
  simp [checkForConflicts, List.any_eq_true, List.mem_filter, and_assoc]

theorem overlapsJs_iff (ci co a b : Int) (hcand : ci ≤ co) (hres : a ≤ b) :
    overlapsJs ci co a b = true ↔ (ci ≤ b ∧ a ≤ co) := by
  simp only [overlapsJs, Bool.or_eq_true, Bool.and_eq_true, decide_eq_true_eq]
  omega

theorem datesInRange_of_le (a b : Int) (h : a ≤ b) :
    datesInRange a b = a :: datesInRange (a + 1) b := by
  rw [datesInRange]
  simp [h]

theorem datesInRange_of_gt (a b : Int) (h : b < a) :
    datesInRange a b = [] := by
  rw [datesInRange]
  simp
  omega

theorem mem_datesInRange (a b d : Int) :
    d ∈ datesInRange a b ↔ a ≤ d ∧ d ≤ b := by
  by_cases h : a ≤ b
  · rw [datesInRange_of_le a b h, List.mem_cons, mem_datesInRange (a + 1) b d]
    omega
  · rw [datesInRange_of_gt a b (by omega)]
    simp
    omega
termination_by (b + 1 - a).toNat
decreasing_by rw [Int.toNat_lt_toNat] <;> omega

theorem count_datesInRange (a b d : Int) :
    (datesInRange a b).count d = if a ≤ d ∧ d ≤ b then 1 else 0 := by
  by_cases h : a ≤ b
  · rw [datesInRange_of_le a b h, List.count_cons, count_datesInRange (a + 1) b d]
    split_ifs <;> simp_all <;> omega
  · rw [datesInRange_of_gt a b (by omega)]
    simp only [List.count_nil]
    split_ifs <;> omega
termination_by (b + 1 - a).toNat
decreasing_by rw [Int.toNat_lt_toNat] <;> omega

/-! ### Sample data for witnesses

Day numbers: with days counted from 1970-01-01, the spec's dates read
2025-01-01 = 20089, 2025-01-10 = 20098, 2025-01-11 = 20099,
2025-01-15 = 20103, 2025-03-01 = 20148, 2025-03-03 = 20150. -/

/-- A sample email predicate for concrete witnesses (any concrete
instantiation of the abstract zod email pattern works). -/
def emailLike (s : String) : Bool :=
  s.data.contains '@'

/-- An active reservation for dorm room 101 over [2025-01-01, 2025-01-10]. -/
def dorm101 : Reservation :=
  { id := "R1", facilityType := FacilityType.dorm, facilityNumber := some "101",
    guestName := "John Doe", guestEmail := "john@example.com",
    checkIn := 20089, checkOut := 20098,
    purpose := "guest accommodation", specialRequests := none,
    status := RStatus.active, createdAt := "t0", needsCleaning := false }

/-- An active range reservation over [2025-01-01, 2025-01-10]. -/
def rangeRes : Reservation :=
  { id := "R2", facilityType := FacilityType.range, facilityNumber := some "A",
    guestName := "Jane Smith", guestEmail := "jane@psp.gov",
    checkIn := 20089, checkOut := 20098,
    purpose := "qualification course", specialRequests := none,
    status := RStatus.active, createdAt := "t0", needsCleaning := false }

/-! ### Claims -/

/-- C1: for a candidate range with `checkIn < checkOut` over a collection of
well-formed reservations, `checkForConflicts` returns true iff some
reservation passing the active/type/unit filter has a closed interval
`[checkIn, checkOut]` overlapping the candidate closed interval under the
rule `[a,b]` overlaps `[c,d]` iff `a ≤ d ∧ c ≤ b` — in particular a
reservation ending on day N conflicts with a candidate starting on day N. -/
theorem checkForConflicts_iff_closed_overlap (rs : List Reservation)
    (ft : FacilityType) (fn : Option String) (ci co : Int)
    (hcand : ci < co) (hw : ∀ r ∈ rs, r.checkIn ≤ r.checkOut) :
    checkForConflicts rs ft fn ci co = true ↔
      ∃ r ∈ rs, matchesFacility ft fn r = true ∧ ci ≤ r.checkOut ∧ r.checkIn ≤ co := by
  rw [checkForConflicts_true_iff]
  constructor
  · rintro ⟨r, hr, hm, ho⟩
    exact ⟨r, hr, hm, (overlapsJs_iff ci co _ _ (le_of_lt hcand) (hw r hr)).1 ho⟩
  · rintro ⟨r, hr, hm, h1, h2⟩
    exact ⟨r, hr, hm, (overlapsJs_iff ci co _ _ (le_of_lt hcand) (hw r hr)).2 ⟨h1, h2⟩⟩

/-- C1 witness: against an active reservation `[2025-01-01, 2025-01-10]`, a
candidate `[2025-01-10, 2025-01-15]` conflicts (touching endpoints),
`[2025-01-11, 2025-01-15]` does not. -/
theorem checkForConflicts_iff_closed_overlap_witness :
    checkForConflicts [dorm101] FacilityType.dorm (some "101") 20098 20103 = true ∧
    checkForConflicts [dorm101] FacilityType.dorm (some "101") 20099 20103 = false := by
  constructor
  · exact (checkForConflicts_iff_closed_overlap [dorm101] FacilityType.dorm (some "101")
      20098 20103 (by decide) (by decide)).2
      ⟨dorm101, by simp, by decide, by decide, by decide⟩
  · by_contra h
    simp only [Bool.not_eq_false] at h
    rcases (checkForConflicts_iff_closed_overlap [dorm101] FacilityType.dorm (some "101")
      20099 20103 (by decide) (by decide)).1 h with ⟨r, hr, -, h1, -⟩
    simp only [List.mem_singleton] at hr
    subst hr
    exact absurd h1 (by decide)

/-- A cancelled reservation that still carries the cleaning flag (the state
reached by cancelling an active reservation). -/
def cancelledCleanRes : Reservation :=
  { dorm101 with status := RStatus.cancelled, needsCleaning := true }

/-- C2 counterexample: cancelling an already-cancelled reservation does NOT
leave `needsCleaning` unchanged — the source rewrites it to
`r.status === "active"`, i.e. `false`, so a cancelled reservation whose flag
was `true` has it reset to `false` by a second cancel. -/
theorem cancelReservation_double_cancel_counterexample :
    cancelledCleanRes.needsCleaning = true ∧
    (cancelReservation [cancelledCleanRes] "R1").1 =
      [{ cancelledCleanRes with needsCleaning := false }] := by
  exact ⟨rfl, by decide⟩

/-- C2 amended: for a reservation at any position of the collection, cancel
rewrites a record whose id matches to `status = cancelled` with
`needsCleaning` set to whether the PRIOR status was `active` — so cancelling
an active reservation sets the flag, while cancelling an already-cancelled
reservation overwrites the flag to `false` (it is not left unchanged) — and
leaves every record whose id differs untouched. -/
theorem cancelReservation_flag_rule (rs : List Reservation) (id : String)
    (i : Nat) (h : i < rs.length) :
    ∃ h2 : i < (cancelReservation rs id).1.length,
      ((rs.get ⟨i, h⟩).id = id →
        (cancelReservation rs id).1.get ⟨i, h2⟩ =
          { rs.get ⟨i, h⟩ with
              status := RStatus.cancelled
              needsCleaning := (rs.get ⟨i, h⟩).status == RStatus.active }) ∧
      ((rs.get ⟨i, h⟩).id ≠ id →
        (cancelReservation rs id).1.get ⟨i, h2⟩ = rs.get ⟨i, h⟩) := by
  refine ⟨by simpa [cancelReservation] using h, ?_, ?_⟩
  · intro hid
    simp only [cancelReservation, List.get_eq_getElem, List.getElem_map]
    rw [if_pos (by simpa using hid)]
  · intro hid
    simp only [cancelReservation, List.get_eq_getElem, List.getElem_map]
    rw [if_neg (by simpa using hid)]

/-- C2 amended witness: cancelling the active `dorm101` sets
`status = cancelled, needsCleaning = true`; cancelling the already-cancelled
`cancelledCleanRes` resets `needsCleaning` to `false`; a record whose id is
not the cancelled one stays untouched. -/
theorem cancelReservation_flag_rule_witness :
    (cancelReservation [dorm101] "R1").1.get ⟨0, by decide⟩ =
      { dorm101 with status := RStatus.cancelled, needsCleaning := true } ∧
    (cancelReservation [cancelledCleanRes] "R1").1.get ⟨0, by decide⟩ =
      { cancelledCleanRes with needsCleaning := false } ∧
    (cancelReservation [dorm101] "R2").1.get ⟨0, by decide⟩ = dorm101 := by
  refine ⟨?_, ?_, ?_⟩
  · rcases cancelReservation_flag_rule [dorm101] "R1" 0 (by decide) with ⟨h2, he, -⟩
    rw [he (by decide)]
    decide
  · rcases cancelReservation_flag_rule [cancelledCleanRes] "R1" 0 (by decide) with ⟨h2, he, -⟩
    rw [he (by decide)]
    decide
  · rcases cancelReservation_flag_rule [dorm101] "R2" 0 (by decide) with ⟨h2, -, he⟩
    exact he (by decide)

/-- Two active range reservations both covering day 20090
(2025-01-02 in day numbers). -/
def bdA : Reservation :=
  { rangeRes with id := "B1", checkIn := 20089, checkOut := 20090 }

/-- Second overlapping range reservation. -/
def bdB : Reservation :=
  { rangeRes with id := "B2", checkIn := 20090, checkOut := 20091 }

/-- C3 counterexample: the source pushes every day of every matching
reservation without deduplication, so a day covered by two overlapping
matching reservations appears TWICE in the returned list, not once. -/
theorem getBookedDatesForFacility_duplicates_counterexample :
    (getBookedDatesForFacility [bdA, bdB] FacilityType.range none).count 20090 = 2 := by
  have hf : List.filter (matchesFacility FacilityType.range none) [bdA, bdB] = [bdA, bdB] := by
    decide
  simp only [getBookedDatesForFacility, hf, List.flatMap_cons, List.flatMap_nil,
    List.append_nil, List.count_append, count_datesInRange]
  norm_num [bdA, bdB, rangeRes]

/-- C3 amended: the returned list enumerates, per matching active
reservation, every day of its inclusive range (so its MEMBERS are exactly
the union of the covered days, but a day covered by several matching
reservations appears once per covering reservation rather than once); a
single matching reservation spanning three consecutive days yields exactly
those three days. -/
theorem getBookedDatesForFacility_coverage :
    (∀ (rs : List Reservation) (ft : FacilityType) (fn : Option String) (d : Int),
        d ∈ getBookedDatesForFacility rs ft fn ↔
          ∃ r ∈ rs, matchesFacility ft fn r = true ∧ r.checkIn ≤ d ∧ d ≤ r.checkOut) ∧
    (∀ (r : Reservation) (ft : FacilityType) (fn : Option String),
        matchesFacility ft fn r = true → r.checkOut = r.checkIn + 2 →
        getBookedDatesForFacility [r] ft fn = [r.checkIn, r.checkIn + 1, r.checkIn + 2]) := by
  constructor
  · intro rs ft fn d
    simp [getBookedDatesForFacility, List.mem_flatMap, List.mem_filter,
      mem_datesInRange, and_assoc]
  · intro r ft fn hm hspan
    have hf : List.filter (matchesFacility ft fn) [r] = [r] := by
      simp [List.filter, hm]
    simp only [getBookedDatesForFacility, hf, List.flatMap_cons, List.flatMap_nil,
      List.append_nil, hspan]
    rw [datesInRange_of_le _ _ (by omega), datesInRange_of_le _ _ (by omega),
      datesInRange_of_le _ _ (by omega), datesInRange_of_gt _ _ (by omega)]
    norm_num
    omega

/-- C3 amended witness: a reservation over `[2025-03-01, 2025-03-03]`
(day numbers 20148..20150) yields exactly the three days 20148, 20149, 20150. -/
theorem getBookedDatesForFacility_coverage_witness :
    getBookedDatesForFacility
      [{ dorm101 with checkIn := 20148, checkOut := 20150 }]
      FacilityType.dorm (some "101") = [20148, 20149, 20150] := by
  have h := getBookedDatesForFacility_coverage.2
    { dorm101 with checkIn := 20148, checkOut := 20150 }
    FacilityType.dorm (some "101") (by decide) (by norm_num)
  simpa using h

/-- C8 counterexample: calling cancel or markForCleaning with an id absent
from the collection does not fail — the collection is mapped unchanged and
the unconditional success/info toast is still emitted (no not-found error
exists in the source). -/
theorem absent_id_success_counterexample :
    (cancelReservation [dorm101] "GHOST").1 = [dorm101] ∧
    Toast.isError (cancelReservation [dorm101] "GHOST").2 = false ∧
    (cancelReservation [dorm101] "GHOST").2 = Toast.success "Reservation cancelled" ∧
    (markForCleaning [dorm101] "GHOST").1 = [dorm101] ∧
    Toast.isError (markForCleaning [dorm101] "GHOST").2 = false ∧
    (markForCleaning [dorm101] "GHOST").2 = Toast.info "Room marked for cleaning" := by
  refine ⟨by decide, rfl, rfl, by decide, rfl, rfl⟩

/-- C8 amended: when the reservation id is absent from the collection,
`cancelReservation` and `markForCleaning` are no-ops on the collection and
still report their normal (non-error) toast; no not-found failure occurs. -/
theorem cancel_mark_absent_id_noop (rs : List Reservation) (id : String)
    (h : ∀ r ∈ rs, r.id ≠ id) :
    (cancelReservation rs id).1 = rs ∧
    Toast.isError (cancelReservation rs id).2 = false ∧
    (markForCleaning rs id).1 = rs ∧
    Toast.isError (markForCleaning rs id).2 = false := by
  refine ⟨?_, rfl, ?_, rfl⟩
  · calc (cancelReservation rs id).1
        = rs.map (fun r => r) := by
          apply List.map_congr_left
          intro r hr
          simp [beq_eq_false_iff_ne.2 (h r hr)]
      _ = rs := List.map_id rs
  · calc (markForCleaning rs id).1
        = rs.map (fun r => r) := by
          apply List.map_congr_left
          intro r hr
          simp [beq_eq_false_iff_ne.2 (h r hr)]
      _ = rs := List.map_id rs

/-- C8 amended witness: with the only stored id being "R1", operations on
"GHOST" keep the collection intact and do not error. -/
theorem cancel_mark_absent_id_noop_witness :
    (cancelReservation [dorm101] "GHOST").1 = [dorm101] ∧
    Toast.isError (cancelReservation [dorm101] "GHOST").2 = false ∧
    (markForCleaning [dorm101] "GHOST").1 = [dorm101] ∧
    Toast.isError (markForCleaning [dorm101] "GHOST").2 = false :=
  cancel_mark_absent_id_noop [dorm101] "GHOST"
    (by intro r hr; simp only [List.mem_singleton] at hr; subst hr; decide)

/-- C4: conflict detection scopes by facility identity — a candidate carrying
a (non-empty) unit is only compared against reservations with exactly that
unit, so dorm reservations in different rooms never conflict; a unit-less
candidate is compared against every active reservation of its type, so
overlapping reservations of a unit-less type such as `range` always
conflict regardless of the stored unit values. -/
theorem checkForConflicts_unit_scoping :
    (∀ (rs : List Reservation) (ft : FacilityType) (u : String) (ci co : Int),
        u ≠ "" → (∀ r ∈ rs, r.facilityNumber ≠ some u) →
        checkForConflicts rs ft (some u) ci co = false) ∧
    (∀ (rs : List Reservation) (ft : FacilityType) (r : Reservation) (ci co : Int),
        r ∈ rs → r.status = RStatus.active → r.facilityType = ft →
        r.checkIn ≤ r.checkOut → ci ≤ co → ci ≤ r.checkOut → r.checkIn ≤ co →
        checkForConflicts rs ft none ci co = true) := by
  constructor
  · intro rs ft u ci co hu hunits
    by_contra h
    simp only [Bool.not_eq_false] at h
    rcases (checkForConflicts_true_iff rs ft (some u) ci co).1 h with ⟨r, hr, hm, -⟩
    simp only [matchesFacility, jsFalsy, Bool.and_eq_true, Bool.or_eq_true,
      beq_iff_eq] at hm
    rcases hm with ⟨-, hunit⟩
    rcases hunit with hemp | heq
    · exact hu hemp
    · exact hunits r hr heq
  · intro rs ft r ci co hr hst hty hwf hcand h1 h2
    exact (checkForConflicts_true_iff rs ft none ci co).2
      ⟨r, hr, by simp [matchesFacility, jsFalsy, hst, hty],
        (overlapsJs_iff ci co _ _ hcand hwf).2 ⟨h1, h2⟩⟩

/-- C4 witness: a dorm candidate for room "102" does not conflict with the
room-101 reservation over identical dates, while a unit-less `range`
candidate conflicts with an overlapping `range` reservation stored with a
unit value. -/
theorem checkForConflicts_unit_scoping_witness :
    checkForConflicts [dorm101] FacilityType.dorm (some "102") 20089 20098 = false ∧
    checkForConflicts [rangeRes] FacilityType.range none 20095 20103 = true := by
  constructor
  · exact checkForConflicts_unit_scoping.1 [dorm101] FacilityType.dorm "102" 20089 20098
      (by decide) (by intro r hr; simp only [List.mem_singleton] at hr; subst hr; decide)
  · exact checkForConflicts_unit_scoping.2 [rangeRes] FacilityType.range rangeRes 20095 20103
      (by simp) (by decide) (by decide) (by decide) (by decide) (by decide) (by decide)

theorem reservationSchema_eq_nil_iff (emailOk : String → Bool) (d : ReservationFormData) :
    reservationSchema emailOk d = [] ↔
      fieldIssues emailOk d = [] ∧ refineIssues d = [] := by
  simp only [reservationSchema]
  by_cases hf : fieldIssues emailOk d = []
  · simp [hf]
  · have hb : (fieldIssues emailOk d).isEmpty = false := by
      rw [Bool.eq_false_iff]
      intro hemp
      exact hf (List.isEmpty_iff.1 hemp)
    simp [hb, hf]

theorem refineIssues_eq_nil_iff (d : ReservationFormData) :
    refineIssues d = [] ↔
      contactRefineOk d = true ∧ d.checkIn < d.checkOut ∧ d.checkOut - d.checkIn ≤ 180 := by
  simp only [refineIssues, List.append_eq_nil]
  split_ifs <;> simp_all

/-- A draft that passes every rule: dorm room 101, guest pair present, range
`[2025-01-01, 2025-06-30]` — exactly 180 days. -/
def baseDraft : ReservationFormData :=
  { facilityType := FacilityType.dorm
    facilityNumber := some "101"
    guestName := some "John Doe"
    guestEmail := some "john@example.com"
    instructorName := none
    instructorEmail := none
    checkIn := 20089
    checkOut := 20269
    purpose := "guest accommodation"
    specialRequests := none }

/-- C5: for a draft whose field checks and contact rule pass, validation
rejects `checkOut ≤ checkIn` with the date-order failure, rejects a duration
of exactly 181 days with the duration failure, and accepts a duration of
exactly 180 days (inclusive bound). -/
theorem reservationSchema_duration_bounds (emailOk : String → Bool)
    (d : ReservationFormData) (hf : fieldIssues emailOk d = [])
    (hcontact : contactRefineOk d = true) :
    (d.checkOut ≤ d.checkIn → Issue.dateOrder ∈ reservationSchema emailOk d) ∧
    (d.checkOut - d.checkIn = 181 → Issue.durationTooLong ∈ reservationSchema emailOk d) ∧
    (d.checkIn < d.checkOut → d.checkOut - d.checkIn ≤ 180 →
      reservationSchema emailOk d = []) := by
  have hs : reservationSchema emailOk d = refineIssues d := by
    simp [reservationSchema, hf]
  refine ⟨?_, ?_, ?_⟩
  · intro hord
    rw [hs]
    simp only [refineIssues, hcontact, if_true, List.nil_append, List.mem_append]
    left
    rw [if_neg (by simp only [decide_eq_true_eq, not_lt]; exact hord)]
    simp
  · intro hdur
    rw [hs]
    simp only [refineIssues, hcontact, if_true, List.nil_append, List.mem_append]
    right
    rw [if_neg (by simp only [decide_eq_true_eq, not_le, hdur]; norm_num)]
    simp
  · intro hord hdur
    rw [hs, refineIssues_eq_nil_iff]
    exact ⟨hcontact, hord, hdur⟩

/-- C5 witness: over `baseDraft`, swapping in `checkOut = checkIn` triggers
the date-order issue, a 181-day range triggers the duration issue, and the
exactly-180-day range validates cleanly. -/
theorem reservationSchema_duration_bounds_witness :
    Issue.dateOrder ∈ reservationSchema emailLike { baseDraft with checkOut := 20089 } ∧
    Issue.durationTooLong ∈ reservationSchema emailLike { baseDraft with checkOut := 20270 } ∧
    reservationSchema emailLike baseDraft = [] := by
  refine ⟨?_, ?_, ?_⟩
  · exact (reservationSchema_duration_bounds emailLike { baseDraft with checkOut := 20089 }
      (by decide) (by decide)).1 (by decide)
  · exact (reservationSchema_duration_bounds emailLike { baseDraft with checkOut := 20270 }
      (by decide) (by decide)).2.1 (by decide)
  · exact (reservationSchema_duration_bounds emailLike baseDraft
      (by decide) (by decide)).2.2 (by decide) (by decide)

/-- C6: contact validation branches on facility type — a dorm draft can only
validate when both guest fields are present, non-empty and pass the format
checks; a dorm draft whose guest email is missing (with clean field checks)
fails with the missing-contact issue; a non-dorm draft with the guest pair
entirely absent but a present, truthy instructor pair (and the other rules
satisfied) validates. -/
theorem reservationSchema_contact_branching :
    (∀ (emailOk : String → Bool) (d : ReservationFormData),
        d.facilityType = FacilityType.dorm → reservationSchema emailOk d = [] →
        ∃ gn ge, d.guestName = some gn ∧ d.guestEmail = some ge ∧
          gn ≠ "" ∧ ge ≠ "" ∧ nameLenOk gn = true ∧ emailOk ge = true) ∧
    (∀ (emailOk : String → Bool) (d : ReservationFormData),
        d.facilityType = FacilityType.dorm → fieldIssues emailOk d = [] →
        jsTruthy d.guestEmail = false →
        Issue.missingContact ∈ reservationSchema emailOk d) ∧
    (∀ (emailOk : String → Bool) (d : ReservationFormData),
        d.facilityType ≠ FacilityType.dorm →
        d.guestName = none → d.guestEmail = none →
        fieldIssues emailOk d = [] →
        jsTruthy d.instructorName = true → jsTruthy d.instructorEmail = true →
        d.checkIn < d.checkOut → d.checkOut - d.checkIn ≤ 180 →
        reservationSchema emailOk d = []) := by
  refine ⟨?_, ?_, ?_⟩
  · intro emailOk d hdorm hval
    rcases (reservationSchema_eq_nil_iff emailOk d).1 hval with ⟨hf, hr⟩
    rcases (refineIssues_eq_nil_iff d).1 hr with ⟨hcontact, -, -⟩
    simp only [contactRefineOk, hdorm, beq_self_eq_true, if_true,
      Bool.and_eq_true] at hcontact
    rcases hcontact with ⟨hgn, hge⟩
    cases hgn' : d.guestName with
    | none => rw [hgn'] at hgn; simp [jsTruthy, jsFalsy] at hgn
    | some gn =>
      cases hge' : d.guestEmail with
      | none => rw [hge'] at hge; simp [jsTruthy, jsFalsy] at hge
      | some ge =>
        refine ⟨gn, ge, rfl, rfl, ?_, ?_, ?_, ?_⟩
        · rw [hgn'] at hgn; simpa [jsTruthy, jsFalsy] using hgn
        · rw [hge'] at hge; simpa [jsTruthy, jsFalsy] using hge
        · have := congrArg (fun l => Issue.guestNameLen ∈ l) hf
          simp only [fieldIssues, List.mem_append, List.not_mem_nil, eq_iff_iff,
            iff_false] at this
          by_contra hbad
          apply this
          left; left; left; left; left
          rw [hgn', if_neg (by simp [optFieldOk, hbad])]
          simp
        · have := congrArg (fun l => Issue.guestEmailFormat ∈ l) hf
          simp only [fieldIssues, List.mem_append, List.not_mem_nil, eq_iff_iff,
            iff_false] at this
          by_contra hbad
          apply this
          left; left; left; left; right
          rw [hge', if_neg (by simp [optFieldOk, hbad])]
          simp
  · intro emailOk d hdorm hf hmiss
    have hs : reservationSchema emailOk d = refineIssues d := by
      simp [reservationSchema, hf]
    rw [hs]
    simp only [refineIssues, List.mem_append]
    left; left
    rw [if_neg (by simp [contactRefineOk, hdorm, hmiss])]
    simp
  · intro emailOk d hnd hgn hge hf hin hie hord hdur
    rw [reservationSchema_eq_nil_iff]
    refine ⟨hf, (refineIssues_eq_nil_iff d).2 ⟨?_, hord, hdur⟩⟩
    simp only [contactRefineOk]
    rw [if_neg (by simp [hnd]), hin, hie]
    rfl

/-- C6 witness: a dorm draft missing its guest email fails with the
missing-contact issue, while the identical payload as a classroom draft with
guest fields absent and an instructor pair present validates; the successful
dorm `baseDraft` exhibits the present-and-valid guest pair. -/
theorem reservationSchema_contact_branching_witness :
    Issue.missingContact ∈
      reservationSchema emailLike { baseDraft with guestEmail := none } ∧
    reservationSchema emailLike
      { baseDraft with
          facilityType := FacilityType.classroom
          facilityNumber := some "CR-1"
          guestName := none
          guestEmail := none
          instructorName := some "Jane Smith"
          instructorEmail := some "jane@psp.gov" } = [] ∧
    (∃ gn ge, baseDraft.guestName = some gn ∧ baseDraft.guestEmail = some ge ∧
      gn ≠ "" ∧ ge ≠ "" ∧ nameLenOk gn = true ∧ emailLike ge = true) := by
  refine ⟨?_, ?_, ?_⟩
  · exact reservationSchema_contact_branching.2.1 emailLike
      { baseDraft with guestEmail := none } (by decide) (by decide) (by decide)
  · exact reservationSchema_contact_branching.2.2 emailLike _
      (by decide) (by decide) (by decide) (by decide) (by decide) (by decide)
      (by decide) (by decide)
  · exact reservationSchema_contact_branching.1 emailLike baseDraft (by decide) (by decide)

theorem onReservationSubmit_success_eq (emailOk : String → Bool)
    (rs : List Reservation) (d : ReservationFormData) (newId now : String)
    (hv : reservationSchema emailOk d = [])
    (hc : checkForConflicts rs d.facilityType d.facilityNumber d.checkIn d.checkOut = false) :
    onReservationSubmit emailOk rs d newId now =
      (rs ++ [newReservation d newId now],
        SubmitResult.created (newReservation d newId now)) := by
  simp [onReservationSubmit, hv, hc]

/-- A draft that conflicts with `dorm101`: same room, candidate
`[2025-01-10, 2025-01-15]` touching the existing checkout day. -/
def conflictDraft : ReservationFormData :=
  { baseDraft with checkIn := 20098, checkOut := 20103 }

/-- C7: the submission pipeline is atomic on failure — if the draft fails any
validation rule or its range conflicts with a matching active reservation,
the reservation collection is returned exactly as it was (no record is
created). -/
theorem onReservationSubmit_failure_preserves_state (emailOk : String → Bool)
    (rs : List Reservation) (d : ReservationFormData) (newId now : String)
    (h : reservationSchema emailOk d ≠ [] ∨
      checkForConflicts rs d.facilityType d.facilityNumber d.checkIn d.checkOut = true) :
    (onReservationSubmit emailOk rs d newId now).1 = rs := by
  by_cases hv : reservationSchema emailOk d = []
  · rcases h with h | h
    · exact absurd hv h
    · simp [onReservationSubmit, hv, h]
  · have hb : (reservationSchema emailOk d).isEmpty = false := by
      rw [Bool.eq_false_iff]
      intro hemp
      exact hv (List.isEmpty_iff.1 hemp)
    simp [onReservationSubmit, hb]

/-- C7 witness: submitting a draft that conflicts with the stored `dorm101`
reservation leaves the collection equal to `[dorm101]`; submitting a draft
that fails validation (duration 181 days) leaves it unchanged too. -/
theorem onReservationSubmit_failure_preserves_state_witness :
    (onReservationSubmit emailLike [dorm101] conflictDraft "NEW" "t1").1 = [dorm101] ∧
    (onReservationSubmit emailLike [dorm101]
      { baseDraft with checkOut := 20270 } "NEW" "t1").1 = [dorm101] := by
  constructor
  · exact onReservationSubmit_failure_preserves_state emailLike [dorm101] conflictDraft
      "NEW" "t1" (Or.inr (by decide))
  · exact onReservationSubmit_failure_preserves_state emailLike [dorm101]
      { baseDraft with checkOut := 20270 } "NEW" "t1" (Or.inl (by decide))

/-- C9: on a validated, conflict-free draft with a fresh id, the pipeline
creates exactly one record — `status = active`, `needsCleaning = false`,
carrying the supplied id and creation timestamp — appends it after the
untouched existing reservations, and returns it. -/
theorem onReservationSubmit_success_creates (emailOk : String → Bool)
    (rs : List Reservation) (d : ReservationFormData) (newId now : String)
    (hv : reservationSchema emailOk d = [])
    (hc : checkForConflicts rs d.facilityType d.facilityNumber d.checkIn d.checkOut = false)
    (hfresh : ∀ r ∈ rs, r.id ≠ newId) :
    ∃ nr : Reservation,
      onReservationSubmit emailOk rs d newId now = (rs ++ [nr], SubmitResult.created nr) ∧
      nr.id = newId ∧ nr.status = RStatus.active ∧ nr.needsCleaning = false ∧
      nr.createdAt = now ∧ (rs ++ [nr]).take rs.length = rs ∧
      ∀ r ∈ rs, r.id ≠ nr.id :=
  ⟨newReservation d newId now,
    onReservationSubmit_success_eq emailOk rs d newId now hv hc,
    rfl, rfl, rfl, rfl, List.take_left rs _, hfresh⟩

/-- C9 witness: submitting `baseDraft` over the singleton collection
`[rangeRes]` appends one active, clean record with the supplied id and
timestamp, keeping `rangeRes` untouched in front. -/
theorem onReservationSubmit_success_creates_witness :
    ∃ nr : Reservation,
      onReservationSubmit emailLike [rangeRes] baseDraft "RES-NEW" "t1" =
        ([rangeRes] ++ [nr], SubmitResult.created nr) ∧
      nr.id = "RES-NEW" ∧ nr.status = RStatus.active ∧ nr.needsCleaning = false ∧
      nr.createdAt = "t1" ∧ ([rangeRes] ++ [nr]).take 1 = [rangeRes] ∧
      ∀ r ∈ [rangeRes], r.id ≠ nr.id :=
  onReservationSubmit_success_creates emailLike [rangeRes] baseDraft "RES-NEW" "t1"
    (by decide) (by decide)
    (by intro r hr; simp only [List.mem_singleton] at hr; subst hr; decide)

/-- C10: validation never requires a facility unit — the validator's outcome
is independent of `facilityNumber` for every facility type; a unit-less
draft that validates without conflict is created; the unit-less conflict
check compares against every active reservation of the facility type, so an
overlapping reservation of that type triggers a conflict whatever its stored
unit; and the unit-less booked-date derivation likewise covers exactly the
days of every active reservation of the type regardless of each stored
reservation's unit. -/
theorem facilityNumber_not_required :
    (∀ (emailOk : String → Bool) (d : ReservationFormData) (x : Option String),
        reservationSchema emailOk { d with facilityNumber := x } =
          reservationSchema emailOk d) ∧
    (∀ (emailOk : String → Bool) (rs : List Reservation) (d : ReservationFormData)
        (newId now : String),
        d.facilityNumber = none → reservationSchema emailOk d = [] →
        checkForConflicts rs d.facilityType none d.checkIn d.checkOut = false →
        ∃ nr : Reservation,
          onReservationSubmit emailOk rs d newId now =
            (rs ++ [nr], SubmitResult.created nr)) ∧
    (∀ (rs : List Reservation) (ft : FacilityType) (r : Reservation) (ci co : Int),
        r ∈ rs → r.status = RStatus.active → r.facilityType = ft →
        r.checkIn ≤ r.checkOut → ci ≤ co → ci ≤ r.checkOut → r.checkIn ≤ co →
        checkForConflicts rs ft none ci co = true) ∧
    (∀ (rs : List Reservation) (ft : FacilityType) (d : Int),
        d ∈ getBookedDatesForFacility rs ft none ↔
          ∃ r ∈ rs, r.status = RStatus.active ∧ r.facilityType = ft ∧
            r.checkIn ≤ d ∧ d ≤ r.checkOut) := by
  refine ⟨?_, ?_, ?_, ?_⟩
  · intro emailOk d x
    rfl
  · intro emailOk rs d newId now hfn hv hc
    rw [← hfn] at hc
    exact ⟨newReservation d newId now,
      onReservationSubmit_success_eq emailOk rs d newId now hv hc⟩
  · intro rs ft r ci co hr hst hty hwf hcand h1 h2
    exact (checkForConflicts_true_iff rs ft none ci co).2
      ⟨r, hr, by simp [matchesFacility, jsFalsy, hst, hty],
        (overlapsJs_iff ci co _ _ hcand hwf).2 ⟨h1, h2⟩⟩
  · intro rs ft d
    simp [getBookedDatesForFacility, List.mem_flatMap, List.mem_filter,
      mem_datesInRange, matchesFacility, jsFalsy, and_assoc]

/-- C10 witness: a dorm draft with no room number validates and is created
over an empty collection; the same unit-less candidate conflicts with the
stored room-101 dorm reservation over overlapping dates; and the unit-less
booked-date derivation for dorms lists a day of the room-101 reservation. -/
theorem facilityNumber_not_required_witness :
    reservationSchema emailLike { baseDraft with facilityNumber := none } =
      reservationSchema emailLike baseDraft ∧
    (∃ nr : Reservation,
      onReservationSubmit emailLike []
        { baseDraft with facilityNumber := none } "RES-NEW" "t1" =
        ([] ++ [nr], SubmitResult.created nr)) ∧
    checkForConflicts [dorm101] FacilityType.dorm none 20098 20103 = true ∧
    20090 ∈ getBookedDatesForFacility [dorm101] FacilityType.dorm none := by
  refine ⟨facilityNumber_not_required.1 emailLike baseDraft none, ?_, ?_, ?_⟩
  · exact facilityNumber_not_required.2.1 emailLike []
      { baseDraft with facilityNumber := none } "RES-NEW" "t1" rfl (by decide) (by decide)
  · exact facilityNumber_not_required.2.2.1 [dorm101] FacilityType.dorm dorm101 20098 20103
      (by simp) (by decide) (by decide) (by decide) (by decide) (by decide) (by decide)
  · exact (facilityNumber_not_required.2.2.2 [dorm101] FacilityType.dorm 20090).2
      ⟨dorm101, by simp, by decide, by decide, by decide, by decide⟩

end PspAcademy
